import Mathlib

/-!
Shallow embedding of the RBAC core of the admin-dashboard starter:
domain entities (`Permission`, `Role`, `User`), the throwing authorization
guards of `src/lib/auth/authorization.ts`, and the `withAuthorization`
route middleware of `src/lib/auth/with-authorization.ts`.

Modelling conventions:
- `Date` values are modelled as `Nat`; every mutating entity method takes an
  explicit `now : Nat` and `touch` sets `updatedAt := now`, mirroring
  `this.props.updatedAt = new Date()`.
- TypeScript methods that may `throw` are modelled as returning
  `Option DomainError × State` (the error, if any, together with the state
  after the call) for entity mutators, and `Except DomainError α` for guards:
  the source always throws before mutating, so the state component on the
  error branch is the unchanged input.
- JavaScript truthiness in `withAuthorization`'s `if (config.field)` tests is
  modelled exactly: a present string is truthy iff non-empty, a present array
  is always truthy (even when empty), a boolean is truthy iff `true`, a
  present function is always truthy.
-/

/-- Domain error hierarchy of `src/core/domain/errors/domain-error.ts`
(the constructors the RBAC core raises). -/
inductive DomainError where
  | validationError (message : String)
  | invalidOperationError (message : String)
  | unauthorizedError (message : String)
  deriving DecidableEq, Repr

/-- `UserStatus` enum of `user.entity.ts`. -/
inductive UserStatus where
  | ACTIVE
  | INACTIVE
  | SUSPENDED
  deriving DecidableEq, Repr

/-- `Permission` entity props of `permission.entity.ts`. -/
structure Permission where
  id : String
  name : String
  description : Option String
  resource : String
  action : String
  createdAt : Nat
  updatedAt : Nat
  deriving DecidableEq, Repr

/-- `Permission.getPermissionString`: the string `resource:action`. -/
def Permission.getPermissionString (p : Permission) : String :=
  p.resource ++ ":" ++ p.action

/-- `Permission.matchesString`: equality of the computed permission string. -/
def Permission.matchesString (p : Permission) (permissionString : String) : Bool :=
  p.getPermissionString == permissionString

/-- JavaScript `String.prototype.trim()`: strips leading and trailing
whitespace (executable model used where the source calls `.trim()`). -/
def jsTrim (s : String) : String :=
  ⟨((s.data.dropWhile Char.isWhitespace).reverse.dropWhile
      Char.isWhitespace).reverse⟩

/-- `Role` entity props of `role.entity.ts`. -/
structure Role where
  id : String
  name : String
  description : Option String
  isSystem : Bool
  permissions : List Permission
  createdAt : Nat
  updatedAt : Nat
  deriving DecidableEq, Repr

/-- `Role.hasPermission`: some permission matches the given string. -/
def Role.hasPermission (r : Role) (permissionString : String) : Bool :=
  r.permissions.any (fun p => p.matchesString permissionString)

/-- `Role.getPermissionStrings`. -/
def Role.getPermissionStrings (r : Role) : List String :=
  r.permissions.map (fun p => p.getPermissionString)

/-- `Role.touch` (private): `updatedAt = new Date()`. -/
def Role.touch (r : Role) (now : Nat) : Role :=
  { r with updatedAt := now }

/-- `Role.updateDetails(name, description)`: throws `InvalidOperationError` on
system roles, `ValidationError` on an empty/whitespace name, otherwise sets
name and description and touches. -/
def Role.updateDetails (r : Role) (name : String) (description : Option String)
    (now : Nat) : Option DomainError × Role :=
  if r.isSystem then
    (some (.invalidOperationError "Cannot modify system roles"), r)
  else if name == "" || (jsTrim name).length == 0 then
    (some (.validationError "Role name is required"), r)
  else
    (none, ({ r with name := name, description := description }).touch now)

/-- `Role.addPermission(permission)`: throws on system roles; early-returns
(without touching) when an equal-by-string permission is already present;
otherwise appends and touches. -/
def Role.addPermission (r : Role) (permission : Permission) (now : Nat) :
    Option DomainError × Role :=
  if r.isSystem then
    (some (.invalidOperationError "Cannot modify permissions of system roles"), r)
  else if r.hasPermission permission.getPermissionString then
    (none, r)
  else
    (none, ({ r with permissions := r.permissions ++ [permission] }).touch now)

/-- `Role.removePermission(permissionId)`: throws on system roles; otherwise
filters by id and touches unconditionally. -/
def Role.removePermission (r : Role) (permissionId : String) (now : Nat) :
    Option DomainError × Role :=
  if r.isSystem then
    (some (.invalidOperationError "Cannot modify permissions of system roles"), r)
  else
    (none, ({ r with
        permissions := r.permissions.filter (fun p => p.id != permissionId) }).touch now)

/-- `Role.setPermissions(permissions)`: throws on system roles; otherwise
replaces the permission list wholesale and touches. -/
def Role.setPermissions (r : Role) (permissions : List Permission) (now : Nat) :
    Option DomainError × Role :=
  if r.isSystem then
    (some (.invalidOperationError "Cannot modify permissions of system roles"), r)
  else
    (none, ({ r with permissions := permissions }).touch now)

/-- `User` entity props of `user.entity.ts` (email and password value objects
modelled by their underlying strings). -/
structure User where
  id : String
  email : String
  password : String
  name : Option String
  image : Option String
  roles : List Role
  status : UserStatus
  emailVerified : Option Nat
  createdAt : Nat
  updatedAt : Nat
  deriving DecidableEq, Repr

/-- `User.hasRole(roleName)`. -/
def User.hasRole (u : User) (roleName : String) : Bool :=
  u.roles.any (fun r => r.name == roleName)

/-- `User.hasAnyRole(roleNames)`. -/
def User.hasAnyRole (u : User) (roleNames : List String) : Bool :=
  roleNames.any (fun rn => u.hasRole rn)

/-- `User.hasAllRoles(roleNames)`. -/
def User.hasAllRoles (u : User) (roleNames : List String) : Bool :=
  roleNames.all (fun rn => u.hasRole rn)

/-- `User.hasPermission(permissionString)`: some role grants it. -/
def User.hasPermission (u : User) (permissionString : String) : Bool :=
  u.roles.any (fun role => role.hasPermission permissionString)

/-- `User.hasAnyPermission(permissionStrings)`. -/
def User.hasAnyPermission (u : User) (permissionStrings : List String) : Bool :=
  permissionStrings.any (fun ps => u.hasPermission ps)

/-- `User.hasAllPermissions(permissionStrings)`. -/
def User.hasAllPermissions (u : User) (permissionStrings : List String) : Bool :=
  permissionStrings.all (fun ps => u.hasPermission ps)

/-- `User.isActive`: `status === UserStatus.ACTIVE`. -/
def User.isActive (u : User) : Bool :=
  decide (u.status = UserStatus.ACTIVE)

/-- `User.isAdmin`: has the `ADMIN` or `SUPER_ADMIN` role. -/
def User.isAdmin (u : User) : Bool :=
  u.hasAnyRole ["ADMIN", "SUPER_ADMIN"]

/-- `User.isSuperAdmin`. -/
def User.isSuperAdmin (u : User) : Bool :=
  u.hasRole "SUPER_ADMIN"

/-- `User.touch` (private). -/
def User.touch (u : User) (now : Nat) : User :=
  { u with updatedAt := now }

/-- `User.assignRole(role)`: no-op when `hasRole(role.name)`, else push and
touch. -/
def User.assignRole (u : User) (role : Role) (now : Nat) : User :=
  if u.hasRole role.name then u
  else ({ u with roles := u.roles ++ [role] }).touch now

/-- `User.assignRoles(roles)`: per-element `assignRole`. -/
def User.assignRoles (u : User) (roles : List Role) (now : Nat) : User :=
  roles.foldl (fun acc role => acc.assignRole role now) u

/-- `User.removeRole(roleId)`: filter by id and touch unconditionally. -/
def User.removeRole (u : User) (roleId : String) (now : Nat) : User :=
  ({ u with roles := u.roles.filter (fun r => r.id != roleId) }).touch now

/-- `User.setRoles(roles)`: wholesale replacement, touch. -/
def User.setRoles (u : User) (roles : List Role) (now : Nat) : User :=
  ({ u with roles := roles }).touch now

/-! ### Authorization guards (`src/lib/auth/authorization.ts`) -/

/-- `requirePermission(user, permission)`. -/
def requirePermission (user : Option User) (permission : String) :
    Except DomainError Unit :=
  match user with
  | none => .error (.unauthorizedError "Authentication required")
  | some u =>
    if !u.isActive then .error (.unauthorizedError "Account is not active")
    else if !u.hasPermission permission then
      .error (.unauthorizedError ("Permission denied: " ++ permission))
    else .ok ()

/-- `requireAnyPermission(user, permissions)`. -/
def requireAnyPermission (user : Option User) (permissions : List String) :
    Except DomainError Unit :=
  match user with
  | none => .error (.unauthorizedError "Authentication required")
  | some u =>
    if !u.isActive then .error (.unauthorizedError "Account is not active")
    else if !u.hasAnyPermission permissions then
      .error (.unauthorizedError
        ("Permission denied: one of " ++ String.intercalate ", " permissions))
    else .ok ()

/-- `requireAllPermissions(user, permissions)`. -/
def requireAllPermissions (user : Option User) (permissions : List String) :
    Except DomainError Unit :=
  match user with
  | none => .error (.unauthorizedError "Authentication required")
  | some u =>
    if !u.isActive then .error (.unauthorizedError "Account is not active")
    else if !u.hasAllPermissions permissions then
      .error (.unauthorizedError
        ("Permission denied: all of " ++ String.intercalate ", " permissions))
    else .ok ()

/-- `requireRole(user, role)`. -/
def requireRole (user : Option User) (role : String) : Except DomainError Unit :=
  match user with
  | none => .error (.unauthorizedError "Authentication required")
  | some u =>
    if !u.isActive then .error (.unauthorizedError "Account is not active")
    else if !u.hasRole role then
      .error (.unauthorizedError ("Role required: " ++ role))
    else .ok ()

/-- `requireAnyRole(user, roles)`. -/
def requireAnyRole (user : Option User) (roles : List String) :
    Except DomainError Unit :=
  match user with
  | none => .error (.unauthorizedError "Authentication required")
  | some u =>
    if !u.isActive then .error (.unauthorizedError "Account is not active")
    else if !u.hasAnyRole roles then
      .error (.unauthorizedError
        ("Role required: one of " ++ String.intercalate ", " roles))
    else .ok ()

/-- `requireAllRoles(user, roles)`. -/
def requireAllRoles (user : Option User) (roles : List String) :
    Except DomainError Unit :=
  match user with
  | none => .error (.unauthorizedError "Authentication required")
  | some u =>
    if !u.isActive then .error (.unauthorizedError "Account is not active")
    else if !u.hasAllRoles roles then
      .error (.unauthorizedError
        ("Roles required: all of " ++ String.intercalate ", " roles))
    else .ok ()

/-- `requireAdmin(user)`. -/
def requireAdmin (user : Option User) : Except DomainError Unit :=
  match user with
  | none => .error (.unauthorizedError "Authentication required")
  | some u =>
    if !u.isActive then .error (.unauthorizedError "Account is not active")
    else if !u.isAdmin then .error (.unauthorizedError "Admin access required")
    else .ok ()

/-- `requireSuperAdmin(user)`. -/
def requireSuperAdmin (user : Option User) : Except DomainError Unit :=
  match user with
  | none => .error (.unauthorizedError "Authentication required")
  | some u =>
    if !u.isActive then .error (.unauthorizedError "Account is not active")
    else if !u.isSuperAdmin then
      .error (.unauthorizedError "Super admin access required")
    else .ok ()

/-- `requireOwnershipOrPermission(user, resourceOwnerId, permission)`. -/
def requireOwnershipOrPermission (user : Option User) (resourceOwnerId : String)
    (permission : String) : Except DomainError Unit :=
  match user with
  | none => .error (.unauthorizedError "Authentication required")
  | some u =>
    if !u.isActive then .error (.unauthorizedError "Account is not active")
    else if u.id == resourceOwnerId then .ok ()
    else if u.hasPermission permission then .ok ()
    else .error (.unauthorizedError "Access denied to this resource")

/-- `requireOwnershipOrAdmin(user, resourceOwnerId)`. -/
def requireOwnershipOrAdmin (user : Option User) (resourceOwnerId : String) :
    Except DomainError Unit :=
  match user with
  | none => .error (.unauthorizedError "Authentication required")
  | some u =>
    if !u.isActive then .error (.unauthorizedError "Account is not active")
    else if u.id == resourceOwnerId then .ok ()
    else if u.isAdmin then .ok ()
    else .error (.unauthorizedError "Access denied to this resource")

/-! ### Route middleware (`src/lib/auth/with-authorization.ts`) -/

/-- `AuthorizationConfig` of `with-authorization.ts`. Absent optional fields
are `none`; `requireAdmin`/`requireSuperAdmin` default to `false` as an absent
boolean is falsy. The custom check is modelled as a pure predicate. -/
structure AuthorizationConfig where
  permission : Option String := none
  anyPermissions : Option (List String) := none
  allPermissions : Option (List String) := none
  role : Option String := none
  anyRoles : Option (List String) := none
  allRoles : Option (List String) := none
  requireAdmin : Bool := false
  requireSuperAdmin : Bool := false
  customCheck : Option (User → Bool) := none
  errorMessage : Option String := none

/-- `if (config.permission) requirePermission(user, config.permission)`:
a present empty string is falsy and skips the check. -/
def checkPermission (config : AuthorizationConfig) (u : User) :
    Except DomainError Unit :=
  match config.permission with
  | some p => if p != "" then requirePermission (some u) p else .ok ()
  | none => .ok ()

/-- `if (config.anyPermissions) ...`: a present array is truthy even when
empty. -/
def checkAnyPermissions (config : AuthorizationConfig) (u : User) :
    Except DomainError Unit :=
  match config.anyPermissions with
  | some ps => requireAnyPermission (some u) ps
  | none => .ok ()

/-- `if (config.allPermissions) ...`. -/
def checkAllPermissions (config : AuthorizationConfig) (u : User) :
    Except DomainError Unit :=
  match config.allPermissions with
  | some ps => requireAllPermissions (some u) ps
  | none => .ok ()

/-- `if (config.role) ...`: empty string falsy. -/
def checkRole (config : AuthorizationConfig) (u : User) :
    Except DomainError Unit :=
  match config.role with
  | some r => if r != "" then requireRole (some u) r else .ok ()
  | none => .ok ()

/-- `if (config.anyRoles) ...`. -/
def checkAnyRoles (config : AuthorizationConfig) (u : User) :
    Except DomainError Unit :=
  match config.anyRoles with
  | some rs => requireAnyRole (some u) rs
  | none => .ok ()

/-- `if (config.allRoles) ...`. -/
def checkAllRoles (config : AuthorizationConfig) (u : User) :
    Except DomainError Unit :=
  match config.allRoles with
  | some rs => requireAllRoles (some u) rs
  | none => .ok ()

/-- `if (config.requireAdmin) requireAdmin(user)`. -/
def checkAdmin (config : AuthorizationConfig) (u : User) :
    Except DomainError Unit :=
  if config.requireAdmin then requireAdmin (some u) else .ok ()

/-- `if (config.requireSuperAdmin) requireSuperAdmin(user)`. -/
def checkSuperAdmin (config : AuthorizationConfig) (u : User) :
    Except DomainError Unit :=
  if config.requireSuperAdmin then requireSuperAdmin (some u) else .ok ()

/-- `config.errorMessage || 'Custom authorization check failed'`. -/
def customCheckErrorMessage (config : AuthorizationConfig) : String :=
  match config.errorMessage with
  | some m => if m != "" then m else "Custom authorization check failed"
  | none => "Custom authorization check failed"

/-- `if (config.customCheck) { if (!result) throw new UnauthorizedError(...) }`. -/
def checkCustom (config : AuthorizationConfig) (u : User) :
    Except DomainError Unit :=
  match config.customCheck with
  | some f =>
    if !(f u) then .error (.unauthorizedError (customCheckErrorMessage config))
    else .ok ()
  | none => .ok ()

/-- Sequencing of the middleware's checks: the first thrown error aborts. -/
def seqCheck (a b : Except DomainError Unit) : Except DomainError Unit :=
  match a with
  | .ok _ => b
  | .error e => .error e

/-- The check sequence of `withAuthorization`, in source order. -/
def runChecks (config : AuthorizationConfig) (u : User) :
    Except DomainError Unit :=
  seqCheck (checkPermission config u) (
  seqCheck (checkAnyPermissions config u) (
  seqCheck (checkAllPermissions config u) (
  seqCheck (checkRole config u) (
  seqCheck (checkAnyRoles config u) (
  seqCheck (checkAllRoles config u) (
  seqCheck (checkAdmin config u) (
  seqCheck (checkSuperAdmin config u) (
  checkCustom config u))))))))

/-- Outcome of a wrapped route: either the wrapped handler's response, or one
of the middleware's structured JSON error responses (`status`, `error` and
`message` body fields). -/
inductive AuthResult (ρ : Type) where
  | handlerResponse (response : ρ)
  | jsonError (status : Nat) (error : String) (message : String)
  deriving DecidableEq, Repr

/-- The body of `withAuthorization`'s `try` block after the null-user test:
run the checks, then call the handler (whose own failures are modelled as
`Except.error`). -/
def withAuthorizationBody {ρ : Type} (handler : User → Except DomainError ρ)
    (config : AuthorizationConfig) (u : User) : Except DomainError ρ :=
  match runChecks config u with
  | .ok _ => handler u
  | .error e => .error e

/-- `withAuthorization(handler, config)` applied to a request whose resolved
user is `user`: a missing user yields the 401 JSON response; an
`UnauthorizedError` escaping the `try` block is converted to the 403 JSON
response carrying its message; any other error is re-thrown (`Except.error`). -/
def withAuthorization {ρ : Type} (handler : User → Except DomainError ρ)
    (config : AuthorizationConfig) (user : Option User) :
    Except DomainError (AuthResult ρ) :=
  match user with
  | none =>
    .ok (.jsonError 401 "Authentication required"
      "You must be logged in to access this resource")
  | some u =>
    match withAuthorizationBody handler config u with
    | .ok r => .ok (.handlerResponse r)
    | .error (.unauthorizedError m) => .ok (.jsonError 403 "Unauthorized" m)
    | .error e => .error e

/-- Discriminator for `UnauthorizedError` among domain errors. -/
def DomainError.isUnauthorized : DomainError → Bool
  | .unauthorizedError _ => true
  | _ => false

/-- The roles collection is deduplicated by role name: no two entries share a
name. -/
def rolesDedupByName (roles : List Role) : Prop :=
  roles.Pairwise (fun a b => a.name ≠ b.name)

instance (roles : List Role) : Decidable (rolesDedupByName roles) :=
  List.instDecidablePairwise roles

/-! ### Concrete fixtures used by witnesses and counterexamples -/

/-- Sample permission `users:read`. -/
def permUsersRead : Permission :=
  { id := "p1", name := "Read users", description := none,
    resource := "users", action := "read", createdAt := 0, updatedAt := 0 }

/-- Sample permission `users:delete`. -/
def permUsersDelete : Permission :=
  { id := "p2", name := "Delete users", description := none,
    resource := "users", action := "delete", createdAt := 0, updatedAt := 0 }

/-- Sample non-system role holding `users:read`. -/
def roleEditor : Role :=
  { id := "r1", name := "EDITOR", description := none, isSystem := false,
    permissions := [permUsersRead], createdAt := 0, updatedAt := 0 }

/-- Sample system role. -/
def roleSystemAdmin : Role :=
  { id := "r2", name := "SUPER_ADMIN", description := none, isSystem := true,
    permissions := [permUsersDelete], createdAt := 0, updatedAt := 3 }

/-- Sample active user holding only `roleEditor`. -/
def userAlice : User :=
  { id := "u1", email := "alice@example.com", password := "hash",
    name := some "Alice", image := none, roles := [roleEditor],
    status := UserStatus.ACTIVE, emailVerified := none,
    createdAt := 0, updatedAt := 0 }

/-- Sample inactive user holding `roleSystemAdmin` (all the roles in the
world do not help an inactive account). -/
def userInactive : User :=
  { id := "u2", email := "bob@example.com", password := "hash",
    name := none, image := none, roles := [roleSystemAdmin, roleEditor],
    status := UserStatus.INACTIVE, emailVerified := none,
    createdAt := 0, updatedAt := 0 }

/-- A handler that always succeeds with `0`. -/
def handlerOk (_u : User) : Except DomainError Nat :=
  .ok 0

/-! ### Claims -/

/-- C1: `User.hasPermission(s)` is true iff at least one assigned role grants
`s` via `Role.hasPermission`; in particular for a user whose roles are
`[R1, R2]` it equals `R1.hasPermission s || R2.hasPermission s` — the
effective grant is the union across roles, never an intersection. -/
theorem C1_hasPermission_union_across_roles (u : User) (s : String) :
    (u.hasPermission s = true ↔ ∃ r ∈ u.roles, r.hasPermission s = true) ∧
    (∀ base : User, ∀ R1 R2 : Role,
      ({ base with roles := [R1, R2] } : User).hasPermission s =
        (R1.hasPermission s || R2.hasPermission s)) := by
  constructor
  · simp [User.hasPermission, List.any_eq_true]
  · intro base R1 R2
    simp [User.hasPermission, List.any]

/-- C3: on a role with `isSystem = true`, each of `updateDetails`,
`addPermission`, `removePermission` and `setPermissions` raises
`InvalidOperationError` and returns the role byte-for-byte unchanged (the
error branch performs no mutation). -/
theorem C3_system_role_mutators_fail_unchanged (r : Role) (h : r.isSystem = true)
    (name : String) (description : Option String) (p : Permission)
    (permissionId : String) (ps : List Permission) (now : Nat) :
    r.updateDetails name description now =
      (some (.invalidOperationError "Cannot modify system roles"), r) ∧
    r.addPermission p now =
      (some (.invalidOperationError "Cannot modify permissions of system roles"), r) ∧
    r.removePermission permissionId now =
      (some (.invalidOperationError "Cannot modify permissions of system roles"), r) ∧
    r.setPermissions ps now =
      (some (.invalidOperationError "Cannot modify permissions of system roles"), r) := by
  simp [Role.updateDetails, Role.addPermission, Role.removePermission,
    Role.setPermissions, h]

/-- C3 witness: the system role fixture rejects all four mutators unchanged. -/
theorem C3_witness :
    roleSystemAdmin.isSystem = true ∧
    roleSystemAdmin.updateDetails "NEW_NAME" none 7 =
      (some (.invalidOperationError "Cannot modify system roles"), roleSystemAdmin) := by
  refine ⟨by decide, ?_⟩
  exact (C3_system_role_mutators_fail_unchanged roleSystemAdmin (by decide)
    "NEW_NAME" none permUsersRead "p2" [] 7).1

/-- C2: every throwing guard checks its preconditions in a fixed order before
any specific check: a null user yields `UnauthorizedError "Authentication
required"`, and any non-null user whose status is not ACTIVE yields
`UnauthorizedError "Account is not active"`, for arbitrary roles,
permissions and arguments. -/
theorem C2_guard_uniform_preconditions (u : User)
    (h : u.status ≠ UserStatus.ACTIVE) (s : String) (l : List String)
    (ownerId : String) :
    (requirePermission none s =
        .error (.unauthorizedError "Authentication required") ∧
      requireAnyPermission none l =
        .error (.unauthorizedError "Authentication required") ∧
      requireAllPermissions none l =
        .error (.unauthorizedError "Authentication required") ∧
      requireRole none s = .error (.unauthorizedError "Authentication required") ∧
      requireAnyRole none l =
        .error (.unauthorizedError "Authentication required") ∧
      requireAllRoles none l =
        .error (.unauthorizedError "Authentication required") ∧
      requireAdmin none = .error (.unauthorizedError "Authentication required") ∧
      requireSuperAdmin none =
        .error (.unauthorizedError "Authentication required") ∧
      requireOwnershipOrPermission none ownerId s =
        .error (.unauthorizedError "Authentication required") ∧
      requireOwnershipOrAdmin none ownerId =
        .error (.unauthorizedError "Authentication required")) ∧
    (requirePermission (some u) s =
        .error (.unauthorizedError "Account is not active") ∧
      requireAnyPermission (some u) l =
        .error (.unauthorizedError "Account is not active") ∧
      requireAllPermissions (some u) l =
        .error (.unauthorizedError "Account is not active") ∧
      requireRole (some u) s =
        .error (.unauthorizedError "Account is not active") ∧
      requireAnyRole (some u) l =
        .error (.unauthorizedError "Account is not active") ∧
      requireAllRoles (some u) l =
        .error (.unauthorizedError "Account is not active") ∧
      requireAdmin (some u) =
        .error (.unauthorizedError "Account is not active") ∧
      requireSuperAdmin (some u) =
        .error (.unauthorizedError "Account is not active") ∧
      requireOwnershipOrPermission (some u) ownerId s =
        .error (.unauthorizedError "Account is not active") ∧
      requireOwnershipOrAdmin (some u) ownerId =
        .error (.unauthorizedError "Account is not active")) := by
  constructor
  · exact ⟨rfl, rfl, rfl, rfl, rfl, rfl, rfl, rfl, rfl, rfl⟩
  · simp [requirePermission, requireAnyPermission, requireAllPermissions,
      requireRole, requireAnyRole, requireAllRoles, requireAdmin,
      requireSuperAdmin, requireOwnershipOrPermission, requireOwnershipOrAdmin,
      User.isActive, h]

/-- C2 witness: the inactive fixture user — who holds the system admin role —
is rejected with "Account is not active" by every guard. -/
theorem C2_witness :
    userInactive.status ≠ UserStatus.ACTIVE ∧
    requirePermission (some userInactive) "users:delete" =
      .error (.unauthorizedError "Account is not active") ∧
    requireAdmin none = .error (.unauthorizedError "Authentication required") := by
  have hm := C2_guard_uniform_preconditions userInactive (by decide)
    "users:delete" [] "u9"
  exact ⟨by decide, hm.2.1, hm.1.2.2.2.2.2.2.1⟩

/-- C4: `withAuthorization` returns the structured 401 outcome carrying
"Authentication required" when no user is resolvable; any
`UnauthorizedError` raised inside the guarded body is caught and converted
to the structured 403 outcome carrying the guard's message and never
propagates; every other error — including one thrown by the wrapped handler —
propagates unchanged. With `{ permission := "users:delete" }`, an ACTIVE user
lacking that permission receives the 403 outcome whose message contains the
denied permission string. -/
theorem C4_withAuthorization_error_boundary {ρ : Type}
    (handler : User → Except DomainError ρ) (config : AuthorizationConfig) :
    (withAuthorization handler config none =
      .ok (.jsonError 401 "Authentication required"
        "You must be logged in to access this resource")) ∧
    (∀ u m, withAuthorizationBody handler config u =
        .error (.unauthorizedError m) →
      withAuthorization handler config (some u) =
        .ok (.jsonError 403 "Unauthorized" m)) ∧
    (∀ user m, withAuthorization handler config user ≠
      .error (.unauthorizedError m)) ∧
    (∀ u e, e.isUnauthorized = false →
      withAuthorizationBody handler config u = .error e →
      withAuthorization handler config (some u) = .error e) ∧
    (∀ u, u.isActive = true → u.hasPermission "users:delete" = false →
      withAuthorization handler { permission := some "users:delete" } (some u) =
        .ok (.jsonError 403 "Unauthorized" "Permission denied: users:delete")) := by
  refine ⟨rfl, ?_, ?_, ?_, ?_⟩
  · intro u m hm
    simp [withAuthorization, hm]
  · intro user m
    cases user with
    | none => simp [withAuthorization]
    | some u =>
      simp only [withAuthorization]
      cases hb : withAuthorizationBody handler config u with
      | ok r => simp
      | error e => cases e <;> simp
  · intro u e he hb
    simp only [withAuthorization, hb]
    cases e <;> simp_all [DomainError.isUnauthorized]
  · intro u hact hperm
    simp [withAuthorization, withAuthorizationBody, runChecks, seqCheck,
      checkPermission, checkAnyPermissions, checkAllPermissions, checkRole,
      checkAnyRoles, checkAllRoles, checkAdmin, checkSuperAdmin, checkCustom,
      requirePermission, hact, hperm]

/-- C4 witness: with `{ permission := "users:delete" }` and a handler that
succeeds, a missing user gets the 401 outcome and the active fixture user,
who lacks `users:delete`, gets the 403 outcome naming the permission. -/
theorem C4_witness :
    withAuthorization handlerOk { permission := some "users:delete" } none =
      .ok (.jsonError 401 "Authentication required"
        "You must be logged in to access this resource") ∧
    withAuthorization handlerOk { permission := some "users:delete" }
        (some userAlice) =
      .ok (.jsonError 403 "Unauthorized" "Permission denied: users:delete") := by
  have hm := C4_withAuthorization_error_boundary handlerOk
    { permission := some "users:delete" }
  exact ⟨hm.1, hm.2.2.2.2 userAlice (by decide) (by decide)⟩

/-- Two distinct roles sharing the name "DUP". -/
def roleDupA : Role :=
  { id := "rA", name := "DUP", description := none, isSystem := false,
    permissions := [], createdAt := 0, updatedAt := 0 }

/-- Second role with the name "DUP" (different id). -/
def roleDupB : Role :=
  { id := "rB", name := "DUP", description := none, isSystem := false,
    permissions := [], createdAt := 0, updatedAt := 0 }

/-- `assignRole` preserves name-deduplication of the roles list. -/
theorem assignRole_preserves_dedup (u : User) (role : Role) (now : Nat)
    (hd : rolesDedupByName u.roles) :
    rolesDedupByName ((u.assignRole role now).roles) := by
  cases hr : u.hasRole role.name with
  | true => simpa [User.assignRole, hr] using hd
  | false =>
    simp only [User.assignRole, hr, Bool.false_eq_true, if_false, User.touch]
    rw [rolesDedupByName, List.pairwise_append]
    refine ⟨hd, List.pairwise_singleton _ _, ?_⟩
    intro a ha b hb
    simp only [List.mem_singleton] at hb
    subst hb
    simp only [User.hasRole, List.any_eq_false] at hr
    have := hr a ha
    simpa using this

/-- `assignRoles` preserves name-deduplication of the roles list. -/
theorem assignRoles_preserves_dedup (roles : List Role) (u : User) (now : Nat)
    (hd : rolesDedupByName u.roles) :
    rolesDedupByName ((u.assignRoles roles now).roles) := by
  induction roles generalizing u with
  | nil => simpa [User.assignRoles] using hd
  | cons r rest ih =>
    simp only [User.assignRoles, List.foldl_cons]
    exact ih (u.assignRole r now) (assignRole_preserves_dedup u r now hd)

/-- `removeRole` preserves name-deduplication of the roles list. -/
theorem removeRole_preserves_dedup (u : User) (roleId : String) (now : Nat)
    (hd : rolesDedupByName u.roles) :
    rolesDedupByName ((u.removeRole roleId now).roles) := by
  simp only [User.removeRole, User.touch]
  exact List.Pairwise.sublist (List.filter_sublist _) hd

/-- C5 counterexample: `setRoles` installs the given list verbatim, so a user
whose roles are deduplicated by name ends up with two roles both named "DUP"
after `setRoles([roleDupA, roleDupB])` — the invariant is not preserved by
`setRoles` as the claim states. -/
theorem C5_counterexample :
    rolesDedupByName userAlice.roles ∧
    ¬ rolesDedupByName ((userAlice.setRoles [roleDupA, roleDupB] 5).roles) := by
  decide

/-- C5 (amended): for a user whose roles are deduplicated by name,
`assignRole`, `assignRoles` and `removeRole` preserve the predicate
unconditionally; `setRoles` installs the provided list verbatim and therefore
preserves it exactly when the provided list itself has no duplicate names. -/
theorem C5_roles_dedup_preserved_amended (u : User)
    (hd : rolesDedupByName u.roles) (role : Role) (roles rs : List Role)
    (roleId : String) (now : Nat) :
    rolesDedupByName ((u.assignRole role now).roles) ∧
    rolesDedupByName ((u.assignRoles roles now).roles) ∧
    rolesDedupByName ((u.removeRole roleId now).roles) ∧
    ((u.setRoles rs now).roles = rs ∧
      (rolesDedupByName rs → rolesDedupByName ((u.setRoles rs now).roles))) := by
  refine ⟨assignRole_preserves_dedup u role now hd,
    assignRoles_preserves_dedup roles u now hd,
    removeRole_preserves_dedup u roleId now hd, rfl, ?_⟩
  intro hrs
  simpa [User.setRoles, User.touch] using hrs

/-- C5 witness: the active fixture user keeps a name-deduplicated roles list
under `assignRole` and under `setRoles` with a duplicate-free input. -/
theorem C5_witness :
    rolesDedupByName userAlice.roles ∧
    rolesDedupByName ((userAlice.assignRole roleDupA 3).roles) ∧
    rolesDedupByName ((userAlice.setRoles [roleDupA] 3).roles) := by
  have hm := C5_roles_dedup_preserved_amended userAlice (by decide) roleDupA
    [roleDupA] [roleDupA] "r1" 3
  exact ⟨by decide, hm.1, hm.2.2.2.2 (by decide)⟩

/-- C6: on a non-system role, adding the same permission twice yields exactly
the state of adding it once — the second add finds an equal-by-string
permission and early-returns — so in particular the permission-string set is
the same (idempotence of `addPermission`). -/
theorem C6_addPermission_idempotent (r : Role) (h : r.isSystem = false)
    (p : Permission) (now now2 : Nat) :
    ((((r.addPermission p now).2).addPermission p now2).2 =
      (r.addPermission p now).2) ∧
    ((((r.addPermission p now).2).addPermission p now2).2.getPermissionStrings =
      ((r.addPermission p now).2).getPermissionStrings) := by
  have key : (((r.addPermission p now).2).addPermission p now2).2 =
      (r.addPermission p now).2 := by
    cases hq : r.hasPermission p.getPermissionString with
    | true => simp [Role.addPermission, h, hq]
    | false =>
      simp only [Role.addPermission, h, Bool.false_eq_true, if_false, hq,
        Role.touch]
      simp [Role.hasPermission, Permission.matchesString]
  exact ⟨key, by rw [key]⟩

/-- C6 witness: adding `users:delete` twice to the editor fixture role equals
adding it once. -/
theorem C6_witness :
    roleEditor.isSystem = false ∧
    ((((roleEditor.addPermission permUsersDelete 4).2).addPermission
        permUsersDelete 6).2.getPermissionStrings =
      ((roleEditor.addPermission permUsersDelete 4).2).getPermissionStrings) := by
  exact ⟨by decide,
    (C6_addPermission_idempotent roleEditor (by decide) permUsersDelete 4 6).2⟩

/-- C7: the no-op path of `Role.addPermission` does not bump `updatedAt` —
when an equal-by-string permission is already present the call returns the
role entirely unchanged — whereas `User.removeRole` touches `updatedAt`
unconditionally, even when no role with the given id is present (in which
case nothing but `updatedAt` changes). -/
theorem C7_noop_touch_asymmetry (r : Role) (p : Permission) (now : Nat)
    (hs : r.isSystem = false)
    (hp : r.hasPermission p.getPermissionString = true)
    (u : User) (roleId : String) :
    r.addPermission p now = (none, r) ∧
    (u.removeRole roleId now).updatedAt = now ∧
    ((∀ rl ∈ u.roles, rl.id ≠ roleId) →
      u.removeRole roleId now = { u with updatedAt := now }) := by
  refine ⟨by simp [Role.addPermission, hs, hp],
    by simp [User.removeRole, User.touch], ?_⟩
  intro habs
  have hf : u.roles.filter (fun rr => rr.id != roleId) = u.roles := by
    rw [List.filter_eq_self]
    intro a ha
    simpa using habs a ha
  simp only [User.removeRole, User.touch, hf]

/-- C7 witness: re-adding `users:read` to the editor fixture role at time 9
leaves it unchanged, while removing an absent role id from the active fixture
user still bumps `updatedAt` to 9. -/
theorem C7_witness :
    roleEditor.isSystem = false ∧
    roleEditor.hasPermission permUsersRead.getPermissionString = true ∧
    roleEditor.addPermission permUsersRead 9 = (none, roleEditor) ∧
    userAlice.removeRole "no-such-id" 9 = { userAlice with updatedAt := 9 } := by
  have hm := C7_noop_touch_asymmetry roleEditor permUsersRead 9 (by decide)
    (by decide) userAlice "no-such-id"
  exact ⟨by decide, by decide, hm.1, hm.2.2 (by decide)⟩

/-- The empty `AuthorizationConfig` — no check configured. -/
def emptyAuthConfig : AuthorizationConfig := {}

/-- C8: with no check configured, `withAuthorization` runs the wrapped
handler for every resolved user — the guarded body is exactly the handler
call — including users whose status is INACTIVE or SUSPENDED: the activity
precondition lives inside the individual guards, not in the middleware
shell. -/
theorem C8_empty_config_runs_handler {ρ : Type}
    (handler : User → Except DomainError ρ) (u : User) :
    withAuthorizationBody handler emptyAuthConfig u = handler u ∧
    (∀ r, handler u = .ok r →
      withAuthorization handler emptyAuthConfig (some u) =
        .ok (.handlerResponse r)) := by
  have hb : withAuthorizationBody handler emptyAuthConfig u = handler u := rfl
  refine ⟨hb, ?_⟩
  intro r hr
  simp [withAuthorization, hb, hr]

/-- C8 witness: the INACTIVE fixture user reaches the handler under the empty
configuration. -/
theorem C8_witness :
    handlerOk userInactive = .ok 0 ∧
    withAuthorization handlerOk emptyAuthConfig (some userInactive) =
      .ok (.handlerResponse 0) := by
  exact ⟨rfl, (C8_empty_config_runs_handler handlerOk userInactive).2 0 rfl⟩

/-- C9: for every ACTIVE user, `hasAnyPermission([])` is false (an OR over
the empty list), `requireAnyPermission(u, [])` throws, and — because a present
empty array is truthy in the middleware's config test — a middleware
configured with `anyPermissions := []` never reaches the wrapped handler for
any request. -/
theorem C9_empty_anyPermissions_denies (u : User)
    (h : u.status = UserStatus.ACTIVE) :
    u.hasAnyPermission [] = false ∧
    requireAnyPermission (some u) [] =
      .error (.unauthorizedError "Permission denied: one of ") ∧
    (∀ (ρ : Type) (handler : User → Except DomainError ρ) (user : Option User)
      (r : ρ),
      withAuthorization handler { anyPermissions := some [] } user ≠
        .ok (.handlerResponse r)) := by
  refine ⟨rfl, ?_, ?_⟩
  · simp only [requireAnyPermission, User.isActive, h, decide_True,
      Bool.not_true, Bool.false_eq_true, if_false, User.hasAnyPermission,
      List.any_nil, Bool.not_false, if_true]
    rfl
  · intro ρ handler user r
    cases user with
    | none => simp [withAuthorization]
    | some v =>
      simp only [withAuthorization, withAuthorizationBody, runChecks, seqCheck,
        checkPermission, checkAnyPermissions, requireAnyPermission]
      cases hv : v.isActive <;>
        simp [hv, User.hasAnyPermission]

/-- C9 witness: the active fixture user is rejected on the empty permission
disjunction, and the middleware configured with the empty `anyPermissions`
list denies even this user. -/
theorem C9_witness :
    userAlice.status = UserStatus.ACTIVE ∧
    requireAnyPermission (some userAlice) [] =
      .error (.unauthorizedError "Permission denied: one of ") ∧
    withAuthorization handlerOk { anyPermissions := some [] }
        (some userAlice) ≠ .ok (.handlerResponse 0) := by
  have hm := C9_empty_anyPermissions_denies userAlice (by decide)
  exact ⟨by decide, hm.2.1, hm.2.2 Nat handlerOk (some userAlice) 0⟩

/-- C10: on a non-system role, `updateDetails` accepts any name whose trim is
non-empty — it never re-checks the creation-time 50-character limit or the
`[a-zA-Z0-9_]` pattern — and stores the name and description verbatim,
touching `updatedAt`. -/
theorem C10_updateDetails_skips_creation_validation (r : Role)
    (hs : r.isSystem = false) (name : String) (ht : jsTrim name ≠ "")
    (description : Option String) (now : Nat) :
    r.updateDetails name description now =
      (none,
        { r with
            name := name
            description := description
            updatedAt := now }) := by
  have h0 : (name == "") = false := by
    rw [beq_eq_false_iff_ne]
    intro hn
    subst hn
    exact ht rfl
  have h1 : ((jsTrim name).length == 0) = false := by
    rw [beq_eq_false_iff_ne]
    intro hl
    apply ht
    apply String.ext
    have : (jsTrim name).data.length = 0 := hl
    simpa using List.length_eq_zero.mp this
  simp [Role.updateDetails, hs, h0, h1, Role.touch]

/-- A role name that violates both creation-time constraints: longer than 50
characters and full of characters outside `[a-zA-Z0-9_]`. -/
def longOddName : String :=
  "this name has spaces & symbols !!! and is over fifty characters long ***"

/-- C10 witness: the editor fixture role accepts `longOddName` verbatim. -/
theorem C10_witness :
    roleEditor.isSystem = false ∧
    jsTrim longOddName ≠ "" ∧
    roleEditor.updateDetails longOddName none 11 =
      (none,
        { roleEditor with
            name := longOddName
            description := none
            updatedAt := 11 }) := by
  exact ⟨by decide, by decide,
    C10_updateDetails_skips_creation_validation roleEditor (by decide)
      longOddName (by decide) none 11⟩
